import Mathlib

/-!
# Verification of the Tunisian legal-assistant chat front-end

Shallow embedding of the client-side conversation/session state machine of
`ui.py`.  The Streamlit script mutates a global `st.session_state`; we model
it as an explicit `SessionState` value threaded through pure transition
functions.  HTTP calls made through `requests` are external: each handler
takes the outcome of the network round-trip as an input parameter and
returns, together with the new state, the request payload it issued
(`none` when no request was made) so that "no HTTP call happens" is a
provable statement.
-/

namespace TunLaw

/-- The `role` field of a conversation message dict in `ui.py`. -/
inductive Role where
  | user
  | assistant
deriving DecidableEq

/-- Optional `metadata` object of a retrieved document
(`{source?, page?, article?}`, read only by `display_document`). -/
structure DocMetadata where
  source : Option String := none
  page : Option Nat := none
  article : Option String := none
deriving DecidableEq

/-- One element of `retrieved_documents` in a `/query` response.  The JSON
`score` is a float carried opaquely by the state machine (never computed
with), rendered here as a rational. -/
structure ReferenceDocument where
  text : String
  score : Rat
  metadata : Option DocMetadata := none
deriving DecidableEq

/-- One message dict appended to `st.session_state.conversation`.
User turns are `{"role": "user", "content": prompt}` (no `sources` /
`reflection` keys, modelled as `none`); assistant turns carry both keys. -/
structure ConversationTurn where
  role : Role
  content : String
  sources : Option (List ReferenceDocument) := none
  reflection : Option String := none
deriving DecidableEq

/-- The `FeedbackType` enum of `ui.py`. -/
inductive FeedbackType where
  | positive
  | negative
  | correction
deriving DecidableEq

/-- `FeedbackType.value`: the string payload sent over the wire. -/
def FeedbackType.value : FeedbackType → String
  | .positive => "positive"
  | .negative => "negative"
  | .correction => "correction"

/-- A parsed HTTP-200 body of `POST /query` as `send_query` consumes it:
`answer` and `retrieved_documents` are accessed with `[...]` (required),
`query_id` and `reflection` with `.get` (optional, `none` models a missing
key). -/
structure QueryResponse where
  query_id : Option String
  answer : String
  retrieved_documents : List ReferenceDocument
  reflection : Option String := none
deriving DecidableEq

/-- A parsed HTTP-200 body of `POST /reflect`: the handler reads
`reflection["reflection"]`. -/
structure ReflectionResponse where
  reflection : String
deriving DecidableEq

/-- `st.session_state.model_settings`. -/
structure ModelSettings where
  temperature : Rat
  max_tokens : Nat
  top_k : Nat
  enable_reflection : Bool
deriving DecidableEq

/-- The mutable session state initialised by `initialize_session_state`.
`feedback_given` is a Python dict keyed by query id, modelled as an
association list with distinct keys (insertion replaces in place). -/
structure SessionState where
  conversation : List ConversationTurn
  current_query_id : Option String
  feedback_given : List (String × FeedbackType)
  model_settings : ModelSettings
  last_response : Option QueryResponse
deriving DecidableEq

/-- The state set up by `initialize_session_state` on a fresh session. -/
def initialState : SessionState where
  conversation := []
  current_query_id := none
  feedback_given := []
  model_settings :=
    { temperature := mkRat 7 10
      max_tokens := 150
      top_k := 3
      enable_reflection := true }
  last_response := none

/-- Python `d[k] = v` on a dict rendered as an association list: replace the
value at the first (only) occurrence of `k`, else append the new entry. -/
def dictInsert (d : List (String × FeedbackType)) (k : String) (v : FeedbackType) :
    List (String × FeedbackType) :=
  match d with
  | [] => [(k, v)]
  | (k₁, v₁) :: rest => if k₁ = k then (k, v) :: rest else (k₁, v₁) :: dictInsert rest k v

/-- The keys of the dict, in insertion order. -/
def dictKeys (d : List (String × FeedbackType)) : List String :=
  d.map Prod.fst

/-- Python `k in d`. -/
def dictMem (k : String) (d : List (String × FeedbackType)) : Bool :=
  (dictKeys d).contains k

/-- The guard shared by `submit_feedback` and `get_reflection`
(`not st.session_state.get('last_response') or not
st.session_state.last_response.get('query_id')`): returns the active query
id exactly when the guard passes.  A missing `query_id` key and an empty
string are both falsy in Python, hence both yield `none`. -/
def activeQueryId (s : SessionState) : Option String :=
  match s.last_response with
  | none => none
  | some r =>
    match r.query_id with
    | none => none
    | some qid => if qid = "" then none else some qid

/-- The JSON body `send_query` posts to `/query` (built from the current
`model_settings`). -/
structure QueryPayload where
  query : String
  field : String
  language : String
  top_k : Nat
  max_tokens : Nat
  temperature : Rat
  enable_reflection : Bool
deriving DecidableEq

/-- The JSON body `submit_feedback` posts to `/feedback`. -/
structure FeedbackPayload where
  query_id : String
  feedback_type : String
  correction_text : Option String
  comments : Option String
deriving DecidableEq

/-- The JSON body `get_reflection` posts to `/reflect`. -/
structure ReflectPayload where
  query_id : String
deriving DecidableEq

/-- Result of `send_query`: the new session state, the payload it posted,
and its Python return value (`data` on HTTP 200, `None` otherwise). -/
structure SendQueryResult where
  state : SessionState
  request : QueryPayload
  response : Option QueryResponse
deriving DecidableEq

/-- `send_query(query, field, language)`.  The network outcome is the input
`http`: `some data` stands for an HTTP 200 response whose JSON body parsed
to `data`; `none` stands for a non-200 status or a raised exception, both
of which print an error and return `None` without touching the state. -/
def send_query (s : SessionState) (query field language : String)
    (http : Option QueryResponse) : SendQueryResult :=
  let payload : QueryPayload :=
    { query := query
      field := field
      language := language
      top_k := s.model_settings.top_k
      max_tokens := s.model_settings.max_tokens
      temperature := s.model_settings.temperature
      enable_reflection := s.model_settings.enable_reflection }
  match http with
  | some data =>
    { state :=
        { s with
          current_query_id := data.query_id
          last_response := some data }
      request := payload
      response := some data }
  | none => { state := s, request := payload, response := none }

/-- Result of `submit_feedback`: new state, the posted payload (`none`
when the guard stopped the call before any request), and the Boolean the
function returns. -/
structure FeedbackCallResult where
  state : SessionState
  request : Option FeedbackPayload
  ok : Bool
deriving DecidableEq

/-- `submit_feedback(feedback_type, correction_text, comments)`.  The
network outcome `http` is `some code` for a response with status `code`
and `none` for a raised exception.  Only status 201 records the feedback;
every other outcome leaves the state untouched and returns `False`. -/
def submit_feedback (s : SessionState) (feedback_type : FeedbackType)
    (correction_text comments : Option String) (http : Option Nat) :
    FeedbackCallResult :=
  match activeQueryId s with
  | none => { state := s, request := none, ok := false }
  | some qid =>
    let payload : FeedbackPayload :=
      { query_id := qid
        feedback_type := feedback_type.value
        correction_text := correction_text
        comments := comments }
    match http with
    | some code =>
      if code = 201 then
        { state := { s with feedback_given := dictInsert s.feedback_given qid feedback_type }
          request := some payload
          ok := true }
      else { state := s, request := some payload, ok := false }
    | none => { state := s, request := some payload, ok := false }

/-- Result of `get_reflection`: the posted payload (`none` when the guard
stopped the call) and the Python return value. -/
structure ReflectCallResult where
  request : Option ReflectPayload
  response : Option ReflectionResponse
deriving DecidableEq

/-- `get_reflection()`.  `http = some data` stands for HTTP 200 with body
`data`; `none` for a non-200 status or exception (both return `None`).
The function itself never mutates the session state. -/
def get_reflection (s : SessionState) (http : Option ReflectionResponse) :
    ReflectCallResult :=
  match activeQueryId s with
  | none => { request := none, response := none }
  | some qid =>
    match http with
    | some data => { request := some { query_id := qid }, response := some data }
    | none => { request := some { query_id := qid }, response := none }

/-- Python `str.strip()` with no argument: drop leading and trailing
whitespace. -/
def pyStrip (s : String) : String :=
  String.mk (((s.data.dropWhile Char.isWhitespace).reverse.dropWhile Char.isWhitespace).reverse)

/-- The local-validation / adapter-error / success trichotomy of one chat
submission. -/
inductive SubmitOutcome where
  | validationError
  | apiError
  | success
deriving DecidableEq

/-- The user message dict appended by the chat input handler. -/
def userTurn (prompt : String) : ConversationTurn :=
  { role := .user, content := prompt }

/-- The assistant message dict appended on a successful response:
`content` from `answer`, `sources` from `retrieved_documents` (same order),
`reflection` from the optional `reflection` key. -/
def assistantTurn (data : QueryResponse) : ConversationTurn :=
  { role := .assistant
    content := data.answer
    sources := some data.retrieved_documents
    reflection := data.reflection }

/-- Result of one run of the chat input handler. -/
structure ChatStepResult where
  state : SessionState
  request : Option QueryPayload
  outcome : SubmitOutcome
deriving DecidableEq

/-- The `if prompt := st.chat_input(...)` block: reject prompts whose
stripped length is under 3 (`st.warning` + `st.stop()`, nothing mutated,
no request posted); otherwise append the user turn, call `send_query`, and
append the assistant turn exactly when it returned data. -/
def chat_input_handler (s : SessionState) (prompt field language : String)
    (http : Option QueryResponse) : ChatStepResult :=
  if (pyStrip prompt).length < 3 then
    { state := s, request := none, outcome := .validationError }
  else
    let s₁ := { s with conversation := s.conversation ++ [userTurn prompt] }
    let r := send_query s₁ prompt field language http
    match r.response with
    | some data =>
      { state := { r.state with conversation := r.state.conversation ++ [assistantTurn data] }
        request := some r.request
        outcome := .success }
    | none => { state := r.state, request := some r.request, outcome := .apiError }

/-- `st.session_state.conversation[-1][key] = value` for a non-empty list:
rewrite the last element with `f`.  (Python raises on an empty list; the
handlers below only reach this under the feedback-section gate, which
guarantees a non-empty conversation.) -/
def updateLast (f : ConversationTurn → ConversationTurn) :
    List ConversationTurn → List ConversationTurn
  | [] => []
  | [t] => [f t]
  | t :: t₂ :: rest => t :: updateLast f (t₂ :: rest)

/-- The Reflect button handler: call `get_reflection`; if it returned a
truthy body, write its `reflection` string into the last turn's
`reflection` key.  Returns the new state and the request posted. -/
def reflect_button_handler (s : SessionState) (http : Option ReflectionResponse) :
    SessionState × Option ReflectPayload :=
  let r := get_reflection s http
  match r.response with
  | some data =>
    ({ s with
        conversation :=
          updateLast (fun t => { t with reflection := some data.reflection }) s.conversation },
      r.request)
  | none => (s, r.request)

/-- The correction-form submit handler: an empty correction string is falsy
(`if correction:`), so it only warns — no request, no mutation.  Otherwise
it calls `submit_feedback` with type `correction` and, exactly when that
returned `True`, overwrites the last turn's `content` with the correction. -/
def correction_form_handler (s : SessionState) (correction comments : String)
    (http : Option Nat) : SessionState × Option FeedbackPayload :=
  if correction = "" then (s, none)
  else
    let r := submit_feedback s .correction (some correction) (some comments) http
    if r.ok then
      ({ r.state with
          conversation := updateLast (fun t => { t with content := correction }) r.state.conversation },
        r.request)
    else (r.state, r.request)

/-- The Clear Conversation button handler: empties `conversation` and
unsets `current_query_id` and `last_response`; `feedback_given` and
`model_settings` are not touched. -/
def clear_conversation (s : SessionState) : SessionState :=
  { s with
    conversation := []
    current_query_id := none
    last_response := none }

/-- The gate on the feedback section (`ui.py` lines 301-304), with Python
short-circuiting: truthy `last_response`, non-empty `conversation`, last
turn's role `assistant`, and `last_response['query_id'] not in
feedback_given`.  The last conjunct indexes `query_id` directly, so a 200
body without that key raises `KeyError`, modelled as `none`. -/
def feedback_section_visible (s : SessionState) : Option Bool :=
  match s.last_response with
  | none => some false
  | some r =>
    match s.conversation.getLast? with
    | none => some false
    | some t =>
      if t.role ≠ Role.assistant then some false
      else
        match r.query_id with
        | none => none
        | some qid => some (!dictMem qid s.feedback_given)

/-- One user-triggered event in the rendered page, carrying the outcome of
whatever network round-trip it performs. -/
inductive UIAction where
  | chatInput (prompt field language : String) (http : Option QueryResponse)
  | positiveButton (http : Option Nat)
  | negativeButton (http : Option Nat)
  | reflectButton (http : Option ReflectionResponse)
  | correctionSubmit (correction comments : String) (http : Option Nat)
  | clearButton

/-- The event dispatch of one script rerun.  The feedback buttons and the
correction form exist on the page only while `feedback_section_visible`
evaluated to `true`, so their handlers run only under that gate. -/
def uiStep (s : SessionState) : UIAction → SessionState
  | .chatInput prompt field language http => (chat_input_handler s prompt field language http).state
  | .positiveButton http =>
    if feedback_section_visible s = some true then
      (submit_feedback s .positive none none http).state
    else s
  | .negativeButton http =>
    if feedback_section_visible s = some true then
      (submit_feedback s .negative none none http).state
    else s
  | .reflectButton http =>
    if feedback_section_visible s = some true then (reflect_button_handler s http).1
    else s
  | .correctionSubmit correction comments http =>
    if feedback_section_visible s = some true then
      (correction_form_handler s correction comments http).1
    else s
  | .clearButton => clear_conversation s

/-- A session: the fold of `uiStep` over a list of events. -/
def uiRun (s : SessionState) : List UIAction → SessionState
  | [] => s
  | a :: rest => uiRun (uiStep s a) rest

/-! ## Sample data used to instantiate the theorems on concrete inputs -/

/-- The `/query` response of the scenario in §8 of the specification. -/
def wResp : QueryResponse :=
  { query_id := some "q1"
    answer := "Article 5 guarantees individual liberty."
    retrieved_documents := [{ text := "Article 5 text", score := mkRat 92 100 }] }

/-- A `/query` response whose body has no `query_id` key. -/
def wNoIdResp : QueryResponse :=
  { query_id := none
    answer := "an answer"
    retrieved_documents := [] }

/-- The session state right after the scenario query succeeded. -/
def wState : SessionState :=
  (chat_input_handler initialState "Explain Article 5" "criminal" "fr" (some wResp)).state

/-- `wState` after positive feedback was accepted with HTTP 201. -/
def wFbState : SessionState :=
  (submit_feedback wState .positive none none (some 201)).state

/-! ## Helper lemmas -/

/-- `updateLast` on a list with last element `t` rewrites exactly that
element. -/
theorem updateLast_eq_append (f : ConversationTurn → ConversationTurn) :
    ∀ (l : List ConversationTurn) (t : ConversationTurn), l.getLast? = some t →
      updateLast f l = l.dropLast ++ [f t]
  | [], t, h => by simp at h
  | [a], t, h => by
    rw [List.getLast?_singleton] at h
    cases h
    rfl
  | a :: b :: l, t, h => by
    rw [List.getLast?_cons_cons] at h
    rw [List.dropLast_cons₂, updateLast, updateLast_eq_append f (b :: l) t h]
    rfl

/-- `updateLast` preserves the length. -/
theorem updateLast_length (f : ConversationTurn → ConversationTurn) :
    ∀ l : List ConversationTurn, (updateLast f l).length = l.length
  | [] => rfl
  | [_] => rfl
  | a :: b :: l => by
    rw [updateLast, List.length_cons, List.length_cons, updateLast_length f (b :: l)]

/-- `updateLast` does not touch any element but the last. -/
theorem updateLast_dropLast (f : ConversationTurn → ConversationTurn)
    (l : List ConversationTurn) : (updateLast f l).dropLast = l.dropLast := by
  cases hl : l.getLast? with
  | none =>
    cases l with
    | nil => rfl
    | cons a l => simp at hl
  | some t =>
    rw [updateLast_eq_append f l t hl, List.dropLast_concat]

/-- The last element of `updateLast f l` is `f` of the last element of
`l`. -/
theorem updateLast_getLast (f : ConversationTurn → ConversationTurn)
    (l : List ConversationTurn) (t : ConversationTurn) (h : l.getLast? = some t) :
    (updateLast f l).getLast? = some (f t) := by
  rw [updateLast_eq_append f l t h, List.getLast?_concat]

/-- The keys after a Python dict assignment: unchanged when the key was
present, the key appended otherwise. -/
theorem dictKeys_dictInsert (d : List (String × FeedbackType)) (k : String) (v : FeedbackType) :
    dictKeys (dictInsert d k v) =
      if k ∈ dictKeys d then dictKeys d else dictKeys d ++ [k] := by
  induction d with
  | nil => simp [dictInsert, dictKeys]
  | cons hd rest ih =>
    obtain ⟨k₁, v₁⟩ := hd
    by_cases hk : k₁ = k
    · subst hk
      simp [dictInsert, dictKeys]
    · have hne : ¬k = k₁ := fun h => hk h.symm
      simp only [dictInsert, if_neg hk, dictKeys, List.map_cons, List.mem_cons, hne,
        false_or] at ih ⊢
      rw [ih]
      split <;> rfl

/-- Dict assignment preserves distinctness of the keys. -/
theorem nodup_dictKeys_dictInsert (d : List (String × FeedbackType)) (k : String)
    (v : FeedbackType) (h : (dictKeys d).Nodup) : (dictKeys (dictInsert d k v)).Nodup := by
  rw [dictKeys_dictInsert]
  split
  · exact h
  · next hmem =>
    rw [List.nodup_append]
    exact ⟨h, List.nodup_singleton k, List.disjoint_singleton.mpr hmem⟩

/-- `send_query` never touches the feedback map. -/
theorem send_query_feedback_given (s : SessionState) (q f l : String)
    (http : Option QueryResponse) :
    (send_query s q f l http).state.feedback_given = s.feedback_given := by
  cases http <;> rfl

/-- The chat input handler never touches the feedback map. -/
theorem chat_input_feedback_given (s : SessionState) (p f l : String)
    (http : Option QueryResponse) :
    (chat_input_handler s p f l http).state.feedback_given = s.feedback_given := by
  unfold chat_input_handler
  split
  · rfl
  · cases http <;> rfl

/-- `submit_feedback` keeps the keys of the feedback map distinct. -/
theorem submit_feedback_nodup (s : SessionState) (ft : FeedbackType)
    (ct cm : Option String) (http : Option Nat)
    (h : (dictKeys s.feedback_given).Nodup) :
    (dictKeys (submit_feedback s ft ct cm http).state.feedback_given).Nodup := by
  unfold submit_feedback
  cases hq : activeQueryId s with
  | none => exact h
  | some qid =>
    cases http with
    | none => exact h
    | some code =>
      by_cases hc : code = 201
      · subst hc
        simpa using nodup_dictKeys_dictInsert s.feedback_given qid ft h
      · simpa [hc] using h

/-- The Reflect button handler never touches the feedback map. -/
theorem reflect_button_feedback_given (s : SessionState) (http : Option ReflectionResponse) :
    (reflect_button_handler s http).1.feedback_given = s.feedback_given := by
  simp only [reflect_button_handler]
  split <;> rfl

/-- The correction form handler keeps the keys of the feedback map
distinct. -/
theorem correction_form_nodup (s : SessionState) (c cm : String) (http : Option Nat)
    (h : (dictKeys s.feedback_given).Nodup) :
    (dictKeys (correction_form_handler s c cm http).1.feedback_given).Nodup := by
  by_cases hc : c = ""
  · simpa [correction_form_handler, hc] using h
  · by_cases hk : (submit_feedback s .correction (some c) (some cm) http).ok <;>
      simpa [correction_form_handler, hc, hk] using
        submit_feedback_nodup s .correction (some c) (some cm) http h

/-- One dispatched event keeps the keys of the feedback map distinct. -/
theorem uiStep_nodup (s : SessionState) (a : UIAction)
    (h : (dictKeys s.feedback_given).Nodup) :
    (dictKeys (uiStep s a).feedback_given).Nodup := by
  cases a with
  | chatInput p f l http => rw [uiStep, chat_input_feedback_given]; exact h
  | positiveButton http =>
    rw [uiStep]; split
    · exact submit_feedback_nodup s .positive none none http h
    · exact h
  | negativeButton http =>
    rw [uiStep]; split
    · exact submit_feedback_nodup s .negative none none http h
    · exact h
  | reflectButton http =>
    rw [uiStep]; split
    · rw [reflect_button_feedback_given]; exact h
    · exact h
  | correctionSubmit c cm http =>
    rw [uiStep]; split
    · exact correction_form_nodup s c cm http h
    · exact h
  | clearButton => exact h

/-- Along any session the keys of the feedback map stay distinct. -/
theorem uiRun_nodup : ∀ (acts : List UIAction) (s : SessionState),
    (dictKeys s.feedback_given).Nodup → (dictKeys (uiRun s acts).feedback_given).Nodup
  | [], _, h => h
  | a :: rest, s, h => uiRun_nodup rest (uiStep s a) (uiStep_nodup s a h)

/-- `updateLast` that only rewrites `content` leaves every turn's
`reflection` untouched. -/
theorem updateLast_map_reflection (c : String) :
    ∀ l : List ConversationTurn,
      (updateLast (fun t => { t with content := c }) l).map ConversationTurn.reflection
        = l.map ConversationTurn.reflection
  | [] => rfl
  | [_] => rfl
  | a :: b :: l => by
    rw [updateLast, List.map_cons, List.map_cons, updateLast_map_reflection c (b :: l)]

/-! ## The claims -/

/-- C1: a query submission that passes validation appends exactly two turns
(the user turn, then the assistant turn) when the adapter call succeeds,
and exactly one turn (the user turn only, no rollback) when it fails with a
non-200 status or a transport error. -/
theorem C1_submit_turn_count (s : SessionState) (prompt field language : String)
    (http : Option QueryResponse) (hvalid : ¬(pyStrip prompt).length < 3) :
    (∀ data : QueryResponse, http = some data →
      (chat_input_handler s prompt field language http).state.conversation
        = s.conversation ++ [userTurn prompt, assistantTurn data])
    ∧ (http = none →
      (chat_input_handler s prompt field language http).state.conversation
        = s.conversation ++ [userTurn prompt]) := by
  constructor
  · rintro data rfl
    simp [chat_input_handler, hvalid, send_query]
  · rintro rfl
    simp [chat_input_handler, hvalid, send_query]

/-- C1, instantiated: the scenario query on a fresh session. -/
theorem C1_submit_turn_count_witness :
    (chat_input_handler initialState "Explain Article 5" "criminal" "fr"
        (some wResp)).state.conversation
      = initialState.conversation ++ [userTurn "Explain Article 5", assistantTurn wResp] :=
  (C1_submit_turn_count initialState "Explain Article 5" "criminal" "fr" (some wResp)
    (by decide)).1 wResp rfl

/-- C2: a prompt whose stripped length is under 3 is rejected with the
validation warning: the state is untouched and no HTTP request is
posted. -/
theorem C2_short_query_no_mutation (s : SessionState) (prompt field language : String)
    (http : Option QueryResponse) (hshort : (pyStrip prompt).length < 3) :
    chat_input_handler s prompt field language http
      = { state := s, request := none, outcome := .validationError } := by
  simp [chat_input_handler, hshort]

/-- C2, instantiated: the two-character prompt `"hi"`. -/
theorem C2_short_query_no_mutation_witness :
    chat_input_handler initialState "hi" "criminal" "fr" none
      = { state := initialState, request := none, outcome := .validationError } :=
  C2_short_query_no_mutation initialState "hi" "criminal" "fr" none (by decide)

/-- C3: on a successful response the appended assistant turn carries the
response's `answer`, its `retrieved_documents` in order as `sources`, and
its optional `reflection`; `current_query_id` and `last_response` are set
from the response, so `last_response.query_id` equals the response's
`query_id`. -/
theorem C3_success_fields (s : SessionState) (prompt field language : String)
    (data : QueryResponse) (hvalid : ¬(pyStrip prompt).length < 3) :
    (chat_input_handler s prompt field language (some data)).outcome = .success
    ∧ (chat_input_handler s prompt field language (some data)).state.conversation.getLast?
        = some (assistantTurn data)
    ∧ assistantTurn data
        = { role := .assistant, content := data.answer,
            sources := some data.retrieved_documents, reflection := data.reflection }
    ∧ (chat_input_handler s prompt field language (some data)).state.current_query_id
        = data.query_id
    ∧ (chat_input_handler s prompt field language (some data)).state.last_response = some data
    ∧ ((chat_input_handler s prompt field language (some data)).state.last_response.map
        QueryResponse.query_id) = some data.query_id := by
  refine ⟨?_, ?_, rfl, ?_, ?_, ?_⟩ <;>
    simp [chat_input_handler, hvalid, send_query, List.getLast?_concat]

/-- C3, instantiated: the §8 scenario response `wResp` with
`query_id = "q1"`. -/
theorem C3_success_fields_witness :
    (chat_input_handler initialState "Explain Article 5" "criminal" "fr"
        (some wResp)).state.conversation.getLast? = some (assistantTurn wResp)
    ∧ ((chat_input_handler initialState "Explain Article 5" "criminal" "fr"
        (some wResp)).state.last_response.map QueryResponse.query_id) = some (some "q1") :=
  ⟨(C3_success_fields initialState "Explain Article 5" "criminal" "fr" wResp (by decide)).2.1,
   (C3_success_fields initialState "Explain Article 5" "criminal" "fr" wResp (by decide)).2.2.2.2.2⟩

/-- C5: submitting the correction form with an empty correction text only
warns: no `/feedback` request is posted and the state is not mutated. -/
theorem C5_empty_correction_no_call (s : SessionState) (comments : String) (http : Option Nat) :
    correction_form_handler s "" comments http = (s, none) := by
  simp [correction_form_handler]

/-- C7: when `last_response` is absent or carries no (truthy) query id,
`submit_feedback` and `get_reflection` both stop at their guard: the
no-active-query warning is the whole effect — no request is posted, the
returned value is the failure value, and the session state is unchanged
(also through the Reflect button handler). -/
theorem C7_no_active_query (s : SessionState) (ftype : FeedbackType) (ct cm : Option String)
    (fhttp : Option Nat) (rhttp : Option ReflectionResponse)
    (hno : activeQueryId s = none) :
    submit_feedback s ftype ct cm fhttp = { state := s, request := none, ok := false }
    ∧ get_reflection s rhttp = { request := none, response := none }
    ∧ reflect_button_handler s rhttp = (s, none) := by
  refine ⟨?_, ?_, ?_⟩
  · simp [submit_feedback, hno]
  · simp [get_reflection, hno]
  · simp [reflect_button_handler, get_reflection, hno]

/-- C7, instantiated: a fresh session has no active query. -/
theorem C7_no_active_query_witness :
    submit_feedback initialState .positive none none (some 201)
      = { state := initialState, request := none, ok := false }
    ∧ get_reflection initialState none = { request := none, response := none } :=
  ⟨(C7_no_active_query initialState .positive none none (some 201) none rfl).1,
   (C7_no_active_query initialState .positive none none (some 201) none rfl).2.1⟩

/-- C8: the Reflect button handler never changes the conversation length;
all turns but the last are untouched, and the last turn keeps its role,
content and sources — only its `reflection` may change. -/
theorem C8_reflection_frame (s : SessionState) (http : Option ReflectionResponse)
    (hgate : feedback_section_visible s = some true) :
    ((reflect_button_handler s http).1.conversation.length = s.conversation.length)
    ∧ ((reflect_button_handler s http).1.conversation.dropLast = s.conversation.dropLast)
    ∧ (∀ t : ConversationTurn, s.conversation.getLast? = some t →
        ∃ t₂ : ConversationTurn,
          (reflect_button_handler s http).1.conversation.getLast? = some t₂
          ∧ t₂.role = t.role ∧ t₂.content = t.content ∧ t₂.sources = t.sources) := by
  simp only [reflect_button_handler]
  split
  · refine ⟨updateLast_length _ _, updateLast_dropLast _ _, ?_⟩
    intro t ht
    exact ⟨_, updateLast_getLast _ _ _ ht, rfl, rfl, rfl⟩
  · exact ⟨rfl, rfl, fun t ht => ⟨t, ht, rfl, rfl, rfl⟩⟩

/-- C8, instantiated: reflecting on the answered scenario state. -/
theorem C8_reflection_frame_witness :
    ((reflect_button_handler wState (some { reflection := "self check" })).1.conversation.length
      = wState.conversation.length)
    ∧ ∃ t₂ : ConversationTurn,
        (reflect_button_handler wState (some { reflection := "self check" })).1.conversation.getLast?
          = some t₂
        ∧ t₂.role = (assistantTurn wResp).role ∧ t₂.content = (assistantTurn wResp).content
        ∧ t₂.sources = (assistantTurn wResp).sources :=
  ⟨(C8_reflection_frame wState (some { reflection := "self check" }) (by decide)).1,
   (C8_reflection_frame wState (some { reflection := "self check" }) (by decide)).2.2
     (assistantTurn wResp) (by decide)⟩

/-- C9: the Clear Conversation handler empties the conversation and unsets
`current_query_id` and `last_response`, while `feedback_given` and
`model_settings` persist; a validated query submitted right after a clear
yields a conversation of length at most 2 that contains the new user turn,
whatever `feedback_given` holds. -/
theorem C9_clear_frame (s : SessionState) :
    (clear_conversation s).conversation = []
    ∧ (clear_conversation s).current_query_id = none
    ∧ (clear_conversation s).last_response = none
    ∧ (clear_conversation s).feedback_given = s.feedback_given
    ∧ (clear_conversation s).model_settings = s.model_settings
    ∧ ∀ (prompt field language : String) (http : Option QueryResponse),
        ¬(pyStrip prompt).length < 3 →
        (chat_input_handler (clear_conversation s) prompt field language
            http).state.conversation.length ≤ 2
        ∧ userTurn prompt ∈
            (chat_input_handler (clear_conversation s) prompt field language
              http).state.conversation := by
  refine ⟨rfl, rfl, rfl, rfl, rfl, ?_⟩
  intro prompt field language http hvalid
  cases http with
  | none =>
    constructor <;> simp [chat_input_handler, hvalid, send_query, clear_conversation]
  | some data =>
    constructor <;> simp [chat_input_handler, hvalid, send_query, clear_conversation]

/-- C9, instantiated: clearing the state that already holds feedback for
`"q1"`, then submitting the §8 follow-up query. -/
theorem C9_clear_frame_witness :
    (clear_conversation wFbState).feedback_given = wFbState.feedback_given
    ∧ ((chat_input_handler (clear_conversation wFbState)
          "What is theft under the penal code?" "criminal" "fr" none).state.conversation.length ≤ 2
      ∧ userTurn "What is theft under the penal code?" ∈
          (chat_input_handler (clear_conversation wFbState)
            "What is theft under the penal code?" "criminal" "fr" none).state.conversation) :=
  ⟨(C9_clear_frame wFbState).2.2.2.1,
   (C9_clear_frame wFbState).2.2.2.2.2 "What is theft under the penal code?" "criminal" "fr"
     none (by decide)⟩

/-- C10: an HTTP 200 body without a `query_id` key still counts as a
success — the assistant turn is appended and the body becomes
`last_response` — while `current_query_id` becomes `None`; afterwards
`submit_feedback` and `get_reflection` stop at their no-active-query guard
without posting any request. -/
theorem C10_missing_query_id (s : SessionState) (prompt field language : String)
    (data : QueryResponse) (ftype : FeedbackType) (ct cm : Option String)
    (fhttp : Option Nat) (rhttp : Option ReflectionResponse)
    (hvalid : ¬(pyStrip prompt).length < 3) (hnoid : data.query_id = none) :
    (chat_input_handler s prompt field language (some data)).outcome = .success
    ∧ (chat_input_handler s prompt field language (some data)).state.conversation
        = s.conversation ++ [userTurn prompt, assistantTurn data]
    ∧ (chat_input_handler s prompt field language (some data)).state.last_response = some data
    ∧ (chat_input_handler s prompt field language (some data)).state.current_query_id = none
    ∧ submit_feedback (chat_input_handler s prompt field language (some data)).state
          ftype ct cm fhttp
        = { state := (chat_input_handler s prompt field language (some data)).state,
            request := none, ok := false }
    ∧ get_reflection (chat_input_handler s prompt field language (some data)).state rhttp
        = { request := none, response := none } := by
  have hactive :
      activeQueryId (chat_input_handler s prompt field language (some data)).state = none := by
    simp [chat_input_handler, hvalid, send_query, activeQueryId, hnoid]
  refine ⟨?_, ?_, ?_, ?_, ?_, ?_⟩
  · simp [chat_input_handler, hvalid, send_query]
  · simp [chat_input_handler, hvalid, send_query]
  · simp [chat_input_handler, hvalid, send_query]
  · simp [chat_input_handler, hvalid, send_query, hnoid]
  · simp [submit_feedback, hactive]
  · simp [get_reflection, hactive]

/-- C10, instantiated: the id-less body `wNoIdResp` on a fresh session. -/
theorem C10_missing_query_id_witness :
    (chat_input_handler initialState "Explain Article 5" "criminal" "fr"
        (some wNoIdResp)).outcome = .success
    ∧ (chat_input_handler initialState "Explain Article 5" "criminal" "fr"
        (some wNoIdResp)).state.current_query_id = none
    ∧ submit_feedback (chat_input_handler initialState "Explain Article 5" "criminal" "fr"
          (some wNoIdResp)).state .negative none none (some 201)
        = { state := (chat_input_handler initialState "Explain Article 5" "criminal" "fr"
              (some wNoIdResp)).state,
            request := none, ok := false } :=
  ⟨(C10_missing_query_id initialState "Explain Article 5" "criminal" "fr" wNoIdResp
      .negative none none (some 201) none (by decide) rfl).1,
   (C10_missing_query_id initialState "Explain Article 5" "criminal" "fr" wNoIdResp
      .negative none none (some 201) none (by decide) rfl).2.2.2.1,
   (C10_missing_query_id initialState "Explain Article 5" "criminal" "fr" wNoIdResp
      .negative none none (some 201) none (by decide) rfl).2.2.2.2.1⟩

/-- C4: with an active query id, the feedback entry is recorded exactly
when `POST /feedback` answered 201 — `submit_feedback` itself never touches
the conversation; through the correction form a 201 additionally rewrites
the last turn's `content` to the correction while every turn's `reflection`
is untouched, and any non-201 status or transport error leaves the whole
state unchanged. -/
theorem C4_feedback_records_iff_201 (s : SessionState) (qid : String) (ftype : FeedbackType)
    (ct cm : Option String) (http : Option Nat) (hactive : activeQueryId s = some qid) :
    ((submit_feedback s ftype ct cm http).state.feedback_given
        = if http = some 201 then dictInsert s.feedback_given qid ftype
          else s.feedback_given)
    ∧ (submit_feedback s ftype ct cm http).state.conversation = s.conversation
    ∧ (http ≠ some 201 → (submit_feedback s ftype ct cm http).state = s)
    ∧ (∀ correction comments : String, correction ≠ "" → http = some 201 →
        (correction_form_handler s correction comments http).1.feedback_given
            = dictInsert s.feedback_given qid .correction
        ∧ (correction_form_handler s correction comments http).1.conversation
            = updateLast (fun t => { t with content := correction }) s.conversation
        ∧ (correction_form_handler s correction comments http).1.conversation.map
              ConversationTurn.reflection
            = s.conversation.map ConversationTurn.reflection)
    ∧ (∀ correction comments : String, http ≠ some 201 →
        (correction_form_handler s correction comments http).1 = s) := by
  have hfb : ∀ (ft₂ : FeedbackType) (ct₂ cm₂ : Option String),
      submit_feedback s ft₂ ct₂ cm₂ http =
        if http = some 201 then
          { state := { s with feedback_given := dictInsert s.feedback_given qid ft₂ }
            request := some { query_id := qid, feedback_type := ft₂.value,
                              correction_text := ct₂, comments := cm₂ }
            ok := true }
        else
          { state := s
            request := some { query_id := qid, feedback_type := ft₂.value,
                              correction_text := ct₂, comments := cm₂ }
            ok := false } := by
    intro ft₂ ct₂ cm₂
    simp only [submit_feedback, hactive]
    cases http with
    | none => simp
    | some code =>
      by_cases hc : code = 201
      · subst hc; simp
      · simp [hc, Option.some_inj]
  refine ⟨?_, ?_, ?_, ?_, ?_⟩
  · rw [hfb ftype ct cm]
    split <;> rfl
  · rw [hfb ftype ct cm]
    split <;> rfl
  · intro hne
    rw [hfb ftype ct cm, if_neg hne]
  · intro correction comments hcne h201
    subst h201
    have hfb₂ := hfb .correction (some correction) (some comments)
    rw [if_pos rfl] at hfb₂
    have hconv :
        (correction_form_handler s correction comments (some 201)).1.conversation
          = updateLast (fun t => { t with content := correction }) s.conversation := by
      simp [correction_form_handler, hcne, hfb₂]
    refine ⟨?_, hconv, ?_⟩
    · simp [correction_form_handler, hcne, hfb₂]
    · rw [hconv, updateLast_map_reflection]
  · intro correction comments hne
    by_cases hcne : correction = ""
    · simp [correction_form_handler, hcne]
    · simp [correction_form_handler, hcne, hfb .correction (some correction) (some comments),
        if_neg hne]

/-- C4, instantiated: positive feedback accepted with 201 on the answered
scenario state, and a correction rejected with 500. -/
theorem C4_feedback_records_iff_201_witness :
    ((submit_feedback wState .positive none none (some 201)).state.feedback_given
        = if (some 201 : Option Nat) = some 201 then
            dictInsert wState.feedback_given "q1" .positive
          else wState.feedback_given)
    ∧ (correction_form_handler wState "better answer" "" (some 500)).1 = wState :=
  ⟨(C4_feedback_records_iff_201 wState "q1" .positive none none (some 201) (by decide)).1,
   (C4_feedback_records_iff_201 wState "q1" .correction none none (some 500)
      (by decide)).2.2.2.2 "better answer" "" (by decide)⟩

/-- C6: the feedback map of any reachable session state holds at most one
entry per query id, and once the current query id is in the map the
client-side gate hides the feedback section — every feedback, reflect or
correction event is then a no-op — while `submit_feedback` itself (the
path to the server) still posts the request when invoked, i.e. the
prevention is the client-side check, not the server. -/
theorem C6_at_most_one_feedback :
    (∀ (acts : List UIAction) (qid : String),
        List.count qid (dictKeys (uiRun initialState acts).feedback_given) ≤ 1)
    ∧ (∀ (s : SessionState) (r : QueryResponse) (qid : String),
        s.last_response = some r → r.query_id = some qid →
        dictMem qid s.feedback_given = true →
        feedback_section_visible s = some false
        ∧ (∀ http : Option Nat,
            uiStep s (UIAction.positiveButton http) = s
            ∧ uiStep s (UIAction.negativeButton http) = s
            ∧ ∀ correction comments : String,
                uiStep s (UIAction.correctionSubmit correction comments http) = s)
        ∧ (∀ rhttp : Option ReflectionResponse, uiStep s (UIAction.reflectButton rhttp) = s)
        ∧ (qid ≠ "" → ∀ (ftype : FeedbackType) (ct cm : Option String) (http : Option Nat),
            (submit_feedback s ftype ct cm http).request
              = some { query_id := qid, feedback_type := ftype.value,
                       correction_text := ct, comments := cm })) := by
  constructor
  · intro acts qid
    exact List.nodup_iff_count_le_one.mp
      (uiRun_nodup acts initialState List.nodup_nil) qid
  · intro s r qid h₁ h₂ h₃
    have hgate : feedback_section_visible s = some false := by
      unfold feedback_section_visible
      rw [h₁]
      cases s.conversation.getLast? with
      | none => rfl
      | some t =>
        by_cases hrole : t.role ≠ Role.assistant
        · simp [hrole]
        · simp [hrole, h₂, h₃]
    refine ⟨hgate, ?_, ?_, ?_⟩
    · intro http
      refine ⟨?_, ?_, ?_⟩ <;> intros <;> simp [uiStep, hgate]
    · intro rhttp
      simp [uiStep, hgate]
    · intro hqne ftype ct cm http
      have hactive : activeQueryId s = some qid := by
        simp [activeQueryId, h₁, h₂, hqne]
      simp only [submit_feedback, hactive]
      cases http with
      | none => rfl
      | some code => by_cases hc : code = 201 <;> simp [hc]

/-- C6, instantiated: one answered query with accepted positive feedback:
its id is counted at most once and the gate is closed afterwards. -/
theorem C6_at_most_one_feedback_witness :
    List.count "q1" (dictKeys (uiRun initialState
        [UIAction.chatInput "Explain Article 5" "criminal" "fr" (some wResp),
         UIAction.positiveButton (some 201)]).feedback_given) ≤ 1
    ∧ feedback_section_visible wFbState = some false :=
  ⟨C6_at_most_one_feedback.1
      [UIAction.chatInput "Explain Article 5" "criminal" "fr" (some wResp),
       UIAction.positiveButton (some 201)] "q1",
   (C6_at_most_one_feedback.2 wFbState wResp "q1" (by decide) (by decide) (by decide)).1⟩

end TunLaw
